import Mathlib

/-!
Verification of the vault-backed account session service
(`accounts/vault` package: `hashicorp_wallet_config.go` and the
session service exercised by `hashicorp_service_test.go`).

The configuration types and the functions `Validate`, `toRequestData`
and `GenerateAndStore` are embedded directly from
`hashicorp_wallet_config.go`.  The session service implementation file
itself is not part of the available sources, so its operations
(credential resolution, Open, Status, GetAccounts, GetPrivateKey,
Close, Store) are modelled from the specification and checked against
the behaviours pinned down by `hashicorp_service_test.go`.
-/

namespace Vault

/-- Embeds `HashicorpSecret` of `hashicorp_wallet_config.go`: the
configuration values required to read/write a secret in the vault.
`Version` is a Go `int`, embedded as `Int`. -/
structure HashicorpSecret where
  Name         : String := ""
  SecretEngine : String := ""
  Version      : Int := 0
  AccountID    : String := ""
  KeyID        : String := ""
  deriving Repr, DecidableEq

/-- Embeds `HashicorpClientConfig` of `hashicorp_wallet_config.go`.
The field `envVarPref` embeds the Go field `EnvVarPrefix` (renamed in
this development). -/
structure HashicorpClientConfig where
  Url        : String := ""
  Approle    : String := ""
  CaCert     : String := ""
  ClientCert : String := ""
  ClientKey  : String := ""
  envVarPref : String := ""
  deriving Repr, DecidableEq

/-- Embeds `HashicorpWalletConfig` of `hashicorp_wallet_config.go`. -/
structure HashicorpWalletConfig where
  Client  : HashicorpClientConfig := {}
  Secrets : List HashicorpSecret := []
  deriving Repr, DecidableEq

/-- Embeds `HashicorpSecret.toRequestData`: converts the fields of a
`HashicorpSecret` into the path and query parameters of a vault
read/write request.  The Go function returns
`(path, queryParams, err)`; embedded as `Except` with the error
message of the source.  The query-parameter map holds the single key
`version`. -/
def HashicorpSecret.toRequestData (s : HashicorpSecret) :
    Except String (String × List (String × List String)) :=
  if s.Version < 0 then
    .error "Hashicorp Vault secret version must be integer >= 0"
  else
    .ok (s.SecretEngine ++ "/data/" ++ s.Name,
         [("version", [toString s.Version])])

/-- The error message `Validate` appends for a secret whose `Version`
check fails, as built by the source with `fmt.Sprintf`. -/
def versionErrMsg (url : String) (s : HashicorpSecret) : String :=
  "Invalid vault secret config, vault=" ++ url ++ ", secret=" ++ s.Name ++
    ": Version must be specified for vault secret and must be greater than zero"

/-- The per-secret error messages collected by `Validate` for one
secret, in the order of the source. -/
def secretErrs (url : String) (skipVersion : Bool) (s : HashicorpSecret) :
    List String :=
  (if s.Name = "" then
     ["Invalid vault secret config, vault=" ++ url ++ ": Name must be provided"]
   else []) ++
  (if s.SecretEngine = "" then
     ["Invalid vault secret config, vault=" ++ url ++ ", secret=" ++ s.Name ++
        ": SecretEngine must be provided"]
   else []) ++
  (if s.KeyID = "" ∨ s.AccountID = "" then
     ["Invalid vault secret config, vault=" ++ url ++ ", secret=" ++ s.Name ++
        ": KeyID and AccountID must be provided"]
   else []) ++
  (if s.Version ≤ 0 ∧ !skipVersion then [versionErrMsg url s] else [])

/-- Embeds `HashicorpWalletConfig.Validate`, returning the list of
collected error strings; the Go function returns a non-nil error
exactly when this list is non-empty. -/
def HashicorpWalletConfig.validateErrs (w : HashicorpWalletConfig)
    (skipVersion : Bool) : List String :=
  (if w.Client.Url = "" then
     ["Invalid vault client config: Vault url must be provided"]
   else []) ++
  (w.Secrets.flatMap (secretErrs w.Client.Url skipVersion))

/-- Embeds `Validate`: `none` when the configuration is valid (Go
returns `nil`), `some msg` when invalid (Go returns a non-nil error
joining the collected messages). -/
def HashicorpWalletConfig.Validate (w : HashicorpWalletConfig)
    (skipVersion : Bool) : Option String :=
  match w.validateErrs skipVersion with
  | [] => none
  | errs => some ("\n" ++ String.intercalate "\n" errs)

/-! ### Credential resolver (session service)

Modelled from the spec: the session service implementation file is not
among the available sources; the Credential Resolver below follows
spec section 4.1 and the behaviours fixed by
`TestOpenPrefixedAndGlobalEnvVarsPrecedence` and
`TestOpenErrorIfPrefixSetInConfigButNoPrefixEnvVarsSet`. -/

/-- The environment-variable name `VAULT_ROLE_ID` (exported constant
`VaultRoleId` of the service file). -/
def VaultRoleId : String := "VAULT_ROLE_ID"

/-- The environment-variable name `VAULT_SECRET_ID` (exported constant
`VaultSecretId` of the service file). -/
def VaultSecretId : String := "VAULT_SECRET_ID"

/-- The environment-variable name `VAULT_TOKEN` (`api.EnvVaultToken`). -/
def EnvVaultToken : String := "VAULT_TOKEN"

/-- An environment: a partial map from variable name to value.  A
variable is set exactly when the map returns `some`. -/
def Env : Type := String → Option String

/-- Modelled from the spec: the four sentinel authentication errors of
the Credential Resolver (`cannotAuthenticateErr`,
`approleAuthenticationErr` and their prefixed variants, compared by
identity in the tests). -/
inductive AuthErr where
  | cannotAuthenticate
  | approleAuthentication
  | cannotAuthenticatePfx
  | approleAuthenticationPfx
  deriving Repr, DecidableEq

/-- Modelled from the spec: a resolved credential is either an AppRole
pair to be exchanged for a token, or a bare token used directly. -/
inductive Credential where
  | approle (roleId secretId : String)
  | token (t : String)
  deriving Repr, DecidableEq

/-- Modelled from the spec: one tier pair of the Credential Resolver
(AppRole over bare token): both AppRole variables set wins; otherwise
a set token variable is used; otherwise exactly one AppRole variable
set is a misconfiguration (`approleErr`) and none at all is an
absence (`cannotErr`). -/
def resolveTier (roleId secretId tok : Option String)
    (cannotErr approleErr : AuthErr) : Except AuthErr Credential :=
  match roleId, secretId with
  | some r, some s => .ok (.approle r s)
  | none, none =>
      match tok with
      | some t => .ok (.token t)
      | none => .error cannotErr
  | _, _ =>
      match tok with
      | some t => .ok (.token t)
      | none => .error approleErr

/-- Modelled from the spec: the Credential Resolver.  `pfx` is the
Connection Config environment-variable prefix (Go `EnvVarPrefix`).
When it is non-empty only the prefixed variables
`{PFX}_VAULT_ROLE_ID`, `{PFX}_VAULT_SECRET_ID`, `{PFX}_VAULT_TOKEN`
are consulted; when it is empty only the global three are. -/
def resolveCredential (pfx : String) (env : Env) : Except AuthErr Credential :=
  if pfx ≠ "" then
    resolveTier (env (pfx ++ "_" ++ VaultRoleId))
      (env (pfx ++ "_" ++ VaultSecretId))
      (env (pfx ++ "_" ++ EnvVaultToken))
      .cannotAuthenticatePfx .approleAuthenticationPfx
  else
    resolveTier (env VaultRoleId) (env VaultSecretId) (env EnvVaultToken)
      .cannotAuthenticate .approleAuthentication

/-- Modelled from the spec: the AppRole mount path used for the login
write, `auth/{approlePath}/login`, defaulting to `approle` when the
Connection Config does not override it. -/
def approlePath (cfg : HashicorpClientConfig) : String :=
  if cfg.Approle = "" then "approle" else cfg.Approle

/-- Modelled from the spec: errors `Open()` can end with — an
authentication error from the Credential Resolver, or a transport
error surfaced unchanged from the AppRole exchange. -/
inductive OpenErr where
  | auth (e : AuthErr)
  | transport (msg : String)
  deriving Repr, DecidableEq

/-- Modelled from the spec: the token `Open()` installs on the
delegate.  `ex loginPath roleId secretId` is the delegate write to
`auth/{approlePath}/login` with body `role_id`/`secret_id`, returning
the client token of the response authentication block or a transport
error. -/
def openToken (cfg : HashicorpClientConfig) (env : Env)
    (ex : String → String → String → Except String String) :
    Except OpenErr String :=
  match resolveCredential cfg.envVarPref env with
  | .error e => .error (.auth e)
  | .ok (.approle r s) =>
      match ex ("auth/" ++ approlePath cfg ++ "/login") r s with
      | .error m => .error (.transport m)
      | .ok t => .ok t
  | .ok (.token t) => .ok t

/-! ### Status (session service) -/

/-- Embeds the `Initialized`/`Sealed` booleans of
`api.HealthResponse` used by `Status()`. -/
structure HealthResponse where
  Initialized : Bool := false
  Sealed : Bool := false
  deriving Repr, DecidableEq

/-- Modelled from the spec: the status string constant `walletClosed`
of the service file; its literal value is not in the available
sources, only distinctness from the other constants matters. -/
def walletClosed : String := "Wallet closed"

/-- Modelled from the spec: the status string constant
`healthcheckFailed`. -/
def healthcheckFailed : String := "Healthcheck failed"

/-- Modelled from the spec: the status string constant
`vaultUninitialised`; the tests build the paired error as
`errors.New(vaultUninitialised)`. -/
def vaultUninitialised : String := "Vault uninitialised"

/-- Modelled from the spec: the status string constant `vaultSealed`;
the tests build the paired error as `errors.New(vaultSealed)`. -/
def vaultSealed : String := "Vault sealed"

/-- Modelled from the spec: the status string constant `walletOpen`. -/
def walletOpen : String := "Wallet open"

/-- Modelled from the spec: `hashicorpService.Status()`.  The client
argument is the delegate when present, represented by the outcome of
its `Sys().Health()` call; the result is the status string paired with
the error (`none` for a nil error), following spec section 4.2 and the
five `TestStatus...` tests. -/
def StatusOf (client : Option (Except String HealthResponse)) :
    String × Option String :=
  match client with
  | none => (walletClosed, none)
  | some (.error e) => (healthcheckFailed, some e)
  | some (.ok h) =>
      if h.Initialized = false then (vaultUninitialised, some vaultUninitialised)
      else if h.Sealed then (vaultSealed, some vaultSealed)
      else (walletOpen, none)

/-! ### Account retrieval (session service) -/

/-- Embeds `accounts.Account` as used by the service: an address and
the account URL (scheme and path rendered as one string). -/
structure Account where
  Address : String := ""
  URL : String := ""
  deriving Repr, DecidableEq

/-- Embeds the service's `acctAndSecret` pair stored in the address
mapping. -/
structure acctAndSecret where
  acct : Account := {}
  secret : HashicorpSecret := {}
  deriving Repr, DecidableEq

/-- Modelled from the spec: `hashicorpService.getAccountUrl`, the pure
locator `{baseURL}/v1/{engine}/data/{name}?version={version}` built
from the Connection Config base URL and the descriptor, failing when
the request data cannot be built
(`TestGetAccountUrlCreatesVaultUrlFromSecretData`). -/
def getAccountUrl (cfg : HashicorpClientConfig) (s : HashicorpSecret) :
    Except String String :=
  match s.toRequestData with
  | .error e => .error e
  | .ok (path, _) => .ok (cfg.Url ++ "/v1/" ++ path ++ "?version=" ++ toString s.Version)

/-- Modelled from the spec: one step of `GetAccounts()` for a single
Secret Descriptor.  `read path query` is the delegate
`Logical().ReadWithData` call combined with parsing the account
address field out of the returned payload; any failure (request build,
transport, parse) is recorded as a per-descriptor error and the
accumulator keeps going. -/
def getAccountsStep (cfg : HashicorpClientConfig)
    (read : String → List (String × List String) → Except String String)
    (acc : List acctAndSecret × List String) (s : HashicorpSecret) :
    List acctAndSecret × List String :=
  match s.toRequestData with
  | .error e => (acc.1, acc.2 ++ [e])
  | .ok (path, qp) =>
      match read path qp with
      | .error e => (acc.1, acc.2 ++ [e])
      | .ok addr =>
          match getAccountUrl cfg s with
          | .error e => (acc.1, acc.2 ++ [e])
          | .ok url =>
              (acc.1 ++ [{ acct := { Address := addr, URL := url }, secret := s }],
               acc.2)

/-- Modelled from the spec: `hashicorpService.GetAccounts()` on an
open wallet — iterate the configured Secret Descriptors sequentially,
collecting resolved accounts and per-descriptor errors independently
(spec section 4.3 and
`TestGetAccountsErrorsAreReturnedAndDoNotStopFurtherRetrievalFromVault`). -/
def getAccounts (cfg : HashicorpClientConfig)
    (read : String → List (String × List String) → Except String String)
    (secrets : List HashicorpSecret) : List acctAndSecret × List String :=
  secrets.foldl (getAccountsStep cfg read) ([], [])

/-! ### Private key retrieval (session service) -/

/-- Embeds the `ecdsa.PrivateKey` values the service handles, reduced
to the scalar rendered as a hex string; the zero value of the Go
struct is `zeroEcdsaKey`. -/
structure EcdsaKey where
  d : String := ""
  deriving Repr, DecidableEq

/-- The zero-value key returned alongside lookup errors. -/
def zeroEcdsaKey : EcdsaKey := {}

/-- The `accounts.ErrUnknownAccount` sentinel message. -/
def unknownAccountErr : String := "unknown account"

/-- Modelled from the spec: retrieval of the key backing one resolved
address-mapping entry — build the descriptor's request, read the
descriptor's path (`read`, the delegate read combined with extracting
the hex key field), and decode the hex into a key pair (`decode`,
`crypto.HexToECDSA`). -/
def retrieveKey
    (read : String → List (String × List String) → Except String String)
    (decode : String → Except String EcdsaKey)
    (s : HashicorpSecret) : EcdsaKey × Option String :=
  match s.toRequestData with
  | .error e => (zeroEcdsaKey, some e)
  | .ok (path, qp) =>
      match read path qp with
      | .error e => (zeroEcdsaKey, some e)
      | .ok hex =>
          match decode hex with
          | .error e => (zeroEcdsaKey, some e)
          | .ok k => (k, none)

/-- Modelled from the spec: `hashicorpService.GetPrivateKey(account)`.
`mapping` is the resolved `acctSecretsByAddress` multi-map, an
association list from address to the insertion-ordered entries.
Unknown address, or a non-empty supplied locator matching no entry,
yields the zero-value key with the unknown-account error; an empty
locator selects the first entry; a matching locator selects that
entry (spec section 4.4 and the four `TestGetPrivateKey...` tests). -/
def GetPrivateKey (mapping : List (String × List acctAndSecret))
    (read : String → List (String × List String) → Except String String)
    (decode : String → Except String EcdsaKey)
    (a : Account) : EcdsaKey × Option String :=
  match mapping.lookup a.Address with
  | none => (zeroEcdsaKey, some unknownAccountErr)
  | some entries =>
      if a.URL = "" then
        match entries with
        | [] => (zeroEcdsaKey, some unknownAccountErr)
        | e :: _ => retrieveKey read decode e.secret
      else
        match entries.find? (fun e => e.acct.URL = a.URL) with
        | none => (zeroEcdsaKey, some unknownAccountErr)
        | some e => retrieveKey read decode e.secret

/-! ### Service state, Close, Store (session service) -/

/-- Modelled from the spec: the delegate held by an open service,
reduced to the session token it carries. -/
structure clientState where
  token : Option String := none
  deriving Repr, DecidableEq

/-- Modelled from the spec: the `hashicorpService` state — immutable
Connection Config and Secret Descriptors, plus the mutable delegate
and resolved address mapping. -/
structure hashicorpService where
  clientConfig : HashicorpClientConfig := {}
  secrets : List HashicorpSecret := []
  client : Option clientState := none
  acctSecretsByAddress : List (String × List acctAndSecret) := []
  deriving Repr, DecidableEq

/-- Modelled from the spec: `newHashicorpService`, fresh construction
from a Connection Config and Secret Descriptors with no delegate and
an empty mapping. -/
def newHashicorpService (cfg : HashicorpClientConfig)
    (secrets : List HashicorpSecret) : hashicorpService :=
  { clientConfig := cfg, secrets := secrets }

/-- Modelled from the spec: the state effect of one session operation.
`Open()` installs a delegate, `GetAccounts()` rebuilds the address
mapping from scratch, `GetPrivateKey()` reads but never mutates state;
the delegate installed / mapping built are carried as data since they
depend on the environment and the vault. -/
inductive SessionOp where
  | openOp (c : clientState)
  | getAccountsOp (m : List (String × List acctAndSecret))
  | getPrivateKeyOp
  deriving Repr, DecidableEq

/-- Modelled from the spec: applying one session operation to the
service state. -/
def applySessionOp (s : hashicorpService) : SessionOp → hashicorpService
  | .openOp c => { s with client := some c }
  | .getAccountsOp m => { s with acctSecretsByAddress := m }
  | .getPrivateKeyOp => s

/-- Modelled from the spec: `hashicorpService.Close()` — clear the
delegate's token, discard the delegate and the Address Mapping.  The
returned flag records whether the delegate's clear-token operation was
invoked (`TestCloseReturnsServiceToNewlyCreatedState`). -/
def CloseService (s : hashicorpService) : hashicorpService × Bool :=
  ({ clientConfig := s.clientConfig, secrets := s.secrets,
     client := none, acctSecretsByAddress := [] },
   s.client.isSome)

/-- The nested payload written by `Store`:
`("data", [(accountIdField, addressHex), (keyIdField, keyHex)])`. -/
def storePayload (s : HashicorpSecret) (addrHex keyHex : String) :
    List (String × List (String × String)) :=
  [("data", [(s.AccountID, addrHex), (s.KeyID, keyHex)])]

/-- Modelled from the spec: `hashicorpService.Store(keyPair)` —
always targets the first configured Secret Descriptor, writes the
nested payload with the hex address derived from the key's public
component (`derive`) and the hex private key, and returns the derived
address on success.  `write path data` is the delegate
`Logical().Write` call, `some e` on transport failure
(`TestStoreAddsKeyToFirstVaultSecret`). -/
def StoreKey (derive : EcdsaKey → String)
    (write : String → List (String × List (String × String)) → Option String)
    (secrets : List HashicorpSecret) (key : EcdsaKey) :
    Except String String :=
  match secrets with
  | [] => .error "no vault secret configured"
  | s :: _ =>
      match s.toRequestData with
      | .error e => .error e
      | .ok (path, _) =>
          match write path (storePayload s (derive key) key.d) with
          | some e => .error e
          | none => .ok (derive key)

/-! ### GenerateAndStore (from `hashicorp_wallet_config.go`)

`GenerateAndStore` itself is embedded from the source; the wallet it
drives (`NewHashicorpVaultWallet`, `Open`, `Status`, `Store`, `Close`)
and `ecdsa.GenerateKey` live outside the available sources, so their
outcomes are abstracted into `WalletOutcomes`. -/

/-- The outcomes of the collaborator calls made by `GenerateAndStore`:
wallet construction, `Open("")`, `Status()` (a status string and the
paired error), key generation, `Store(key)` (the derived address on
success), and `Close()`. -/
structure WalletOutcomes where
  newWallet : Option String := none
  openRes : Option String := none
  statusRes : String × Option String := (walletOpen, none)
  genKey : Except String EcdsaKey := .ok {}
  storeRes : Except String String := .ok ""
  closeRes : Option String := none
  deriving Repr

/-- The zero `common.Address` returned on every failure before a
successful `Store`. -/
def zeroAddress : String := ""

/-- Embeds `GenerateAndStore` of `hashicorp_wallet_config.go`: create
and open the wallet, check its status is `walletOpen`, generate a key,
store it, then close; each failure short-circuits with the zero
address, except a `Close` failure after a successful `Store`, which
returns the stored address with the wrapped error
(`errors.WithMessage`, rendered `msg: err`). -/
def GenerateAndStore (w : WalletOutcomes) : String × Option String :=
  match w.newWallet with
  | some e => (zeroAddress, some e)
  | none =>
  match w.openRes with
  | some e => (zeroAddress, some e)
  | none =>
  match w.statusRes with
  | (_, some e) => (zeroAddress, some e)
  | (status, none) =>
  if status ≠ walletOpen then
    (zeroAddress, some ("error creating Vault client, " ++ status))
  else
  match w.genKey with
  | .error e => (zeroAddress, some e)
  | .ok _ =>
  match w.storeRes with
  | .error e => (zeroAddress, some e)
  | .ok address =>
  match w.closeRes with
  | some e => (address, some ("unable to close Hashicorp Vault wallet: " ++ e))
  | none => (address, none)

/-! ### Concrete fixtures used by witnesses (mirroring the tests) -/

/-- The four-descriptor set of the retrieval-isolation test:
descriptor 2 has an invalid (negative) version and descriptor 3 is the
one the read fixture fails on. -/
def c3Secrets : List HashicorpSecret :=
  [{ Name := "secret1", AccountID := "id" },
   { Name := "secret2", Version := -1 },
   { Name := "secret3" },
   { Name := "secret4", AccountID := "id" }]

/-- The read fixture of the retrieval-isolation test: a transport
error on descriptor 3's path, a valid address payload elsewhere. -/
def c3Read : String → List (String × List String) → Except String String :=
  fun path _ =>
    if path = "/data/secret3" then Except.error "some error"
    else Except.ok "4cbB1D65c1441554A1cd96CEC448796C01a46Bb9"

/-- The Connection Config of the retrieval-isolation test. -/
def c3Cfg : HashicorpClientConfig := { Url := "http://someurl" }

/-- The environment used by the precedence test: all four credential
tiers populated simultaneously, with prefix `PREFIXED`. -/
def testEnvFull : Env := fun n =>
  if n = "PREFIXED_VAULT_ROLE_ID" then some "prefixed-role-id"
  else if n = "PREFIXED_VAULT_SECRET_ID" then some "prefixed-secret-id"
  else if n = "PREFIXED_VAULT_TOKEN" then some "prefixed-token"
  else if n = "VAULT_ROLE_ID" then some "global-role-id"
  else if n = "VAULT_SECRET_ID" then some "global-secret-id"
  else if n = "VAULT_TOKEN" then some "global-token"
  else none

/-- The AppRole exchange used by the precedence test: the prefixed
pair yields the prefixed-AppRole token, anything else the
global-AppRole token. -/
def testExchange : String → String → String → Except String String :=
  fun _ r s =>
    if r = "prefixed-role-id" ∧ s = "prefixed-secret-id" then
      Except.ok "prefixed-approle-token"
    else Except.ok "global-approle-token"

/-- The environment used by the prefixed-failure test: both global
tiers populated, no prefixed variable set. -/
def testEnvGlobalOnly : Env := fun n =>
  if n = "VAULT_ROLE_ID" then some "global-role-id"
  else if n = "VAULT_SECRET_ID" then some "global-secret-id"
  else if n = "VAULT_TOKEN" then some "global-token"
  else none

/-! ## Theorems -/

/-- C4: `toRequestData()` returns an error exactly when `Version < 0`;
otherwise it deterministically returns the path
`{SecretEngine}/data/{Name}` and a query map whose `version` entry is
the singleton list holding the decimal string of `Version` (so
`Version = 0` is accepted at request-build time). -/
theorem toRequestData_spec (s : HashicorpSecret) :
    ((∃ e, s.toRequestData = Except.error e) ↔ s.Version < 0) ∧
    (0 ≤ s.Version →
      s.toRequestData = Except.ok (s.SecretEngine ++ "/data/" ++ s.Name,
        [("version", [toString s.Version])])) := by
  refine ⟨⟨?_, ?_⟩, ?_⟩
  · rintro ⟨e, he⟩
    by_contra h
    rw [HashicorpSecret.toRequestData, if_neg h] at he
    exact Except.noConfusion he
  · intro h
    exact ⟨_, by rw [HashicorpSecret.toRequestData, if_pos h]⟩
  · intro h
    rw [HashicorpSecret.toRequestData, if_neg (not_lt.mpr h)]

/-- C4 witness: a version-0 descriptor builds successfully with the
expected path and query parameters. -/
theorem toRequestData_spec_witness :
    ({ Name := "foo", SecretEngine := "kv", Version := 0 } : HashicorpSecret).toRequestData
      = Except.ok ("kv/data/foo", [("version", ["0"])]) := by
  have h := (toRequestData_spec { Name := "foo", SecretEngine := "kv", Version := 0 }).2
    (by decide)
  simpa using h

/-- C5: a negative descriptor version is reported at request-build
time, not at config-load time — `toRequestData` fails whenever
`Version < 0`, while for a descriptor whose other fields are valid,
`Validate skipVersion` rejects `Version ≤ 0` exactly when
`skipVersion` is false and accepts any positive version. -/
theorem validate_version_check (url : String) (s : HashicorpSecret)
    (hu : url ≠ "") (hn : s.Name ≠ "") (he : s.SecretEngine ≠ "")
    (hk : s.KeyID ≠ "") (ha : s.AccountID ≠ "") :
    (s.Version < 0 → ∃ e, s.toRequestData = Except.error e) ∧
    (s.Version ≤ 0 → ∀ skipVersion,
      (HashicorpWalletConfig.Validate { Client := { Url := url }, Secrets := [s] } skipVersion
        = none ↔ skipVersion = true)) ∧
    (0 < s.Version → ∀ skipVersion,
      HashicorpWalletConfig.Validate { Client := { Url := url }, Secrets := [s] } skipVersion
        = none) := by
  refine ⟨?_, ?_, ?_⟩
  · intro hv
    exact ⟨_, by rw [HashicorpSecret.toRequestData, if_pos hv]⟩
  · intro hv skipVersion
    cases skipVersion <;>
      simp [HashicorpWalletConfig.Validate, HashicorpWalletConfig.validateErrs,
        secretErrs, hu, hn, he, hk, ha, hv]
  · intro hv skipVersion
    simp [HashicorpWalletConfig.Validate, HashicorpWalletConfig.validateErrs,
      secretErrs, hu, hn, he, hk, ha, not_le.mpr hv]

/-- C5 witness: a negative-version descriptor fails request building,
passes `Validate true` and fails `Validate false`. -/
theorem validate_version_check_witness :
    (∃ e, ({ Name := "n", SecretEngine := "kv", Version := -1, AccountID := "a",
             KeyID := "k" } : HashicorpSecret).toRequestData = Except.error e) ∧
    (HashicorpWalletConfig.Validate
        { Client := { Url := "http://u" },
          Secrets := [{ Name := "n", SecretEngine := "kv", Version := -1,
                        AccountID := "a", KeyID := "k" }] } true = none) ∧
    (HashicorpWalletConfig.Validate
        { Client := { Url := "http://u" },
          Secrets := [{ Name := "n", SecretEngine := "kv", Version := -1,
                        AccountID := "a", KeyID := "k" }] } false ≠ none) := by
  have h := validate_version_check "http://u"
    { Name := "n", SecretEngine := "kv", Version := -1, AccountID := "a", KeyID := "k" }
    (by decide) (by decide) (by decide) (by decide) (by decide)
  exact ⟨h.1 (by decide), (h.2.1 (by decide) true).mpr rfl,
    fun hc => by simpa using (h.2.1 (by decide) false).mp hc⟩

/-- C7: `Status()` maps the delegate and health outcomes to exactly
five results — no delegate gives wallet-closed with no error, a
health transport error gives healthcheck-failed with that error,
`Initialized = false` gives the vault-uninitialised error,
initialized-and-sealed gives the vault-sealed error, and
initialized-and-unsealed gives wallet-open with no error. -/
theorem status_five_cases :
    (StatusOf none = (walletClosed, none)) ∧
    (∀ e, StatusOf (some (Except.error e)) = (healthcheckFailed, some e)) ∧
    (∀ sealed, StatusOf (some (Except.ok { Initialized := false, Sealed := sealed }))
      = (vaultUninitialised, some vaultUninitialised)) ∧
    (StatusOf (some (Except.ok { Initialized := true, Sealed := true }))
      = (vaultSealed, some vaultSealed)) ∧
    (StatusOf (some (Except.ok { Initialized := true, Sealed := false }))
      = (walletOpen, none)) :=
  ⟨rfl, fun _ => rfl, fun _ => rfl, rfl, rfl⟩

/-- C10: `GenerateAndStore` returns the zero address with the error
whenever wallet construction, `Open`, `Status` (including a non-open
status), key generation, or `Store` fails; only a `Close` failure
after a successful `Store` returns the stored address with the
error wrapped by `unable to close Hashicorp Vault wallet`; full
success returns the stored address with no error. -/
theorem generateAndStore_spec (w : WalletOutcomes) :
    (∀ e, w.newWallet = some e → GenerateAndStore w = (zeroAddress, some e)) ∧
    (∀ e, w.newWallet = none → w.openRes = some e →
      GenerateAndStore w = (zeroAddress, some e)) ∧
    (∀ st e, w.newWallet = none → w.openRes = none → w.statusRes = (st, some e) →
      GenerateAndStore w = (zeroAddress, some e)) ∧
    (∀ st, w.newWallet = none → w.openRes = none → w.statusRes = (st, none) →
      st ≠ walletOpen →
      GenerateAndStore w = (zeroAddress, some ("error creating Vault client, " ++ st))) ∧
    (∀ e, w.newWallet = none → w.openRes = none → w.statusRes = (walletOpen, none) →
      w.genKey = Except.error e → GenerateAndStore w = (zeroAddress, some e)) ∧
    (∀ k e, w.newWallet = none → w.openRes = none → w.statusRes = (walletOpen, none) →
      w.genKey = Except.ok k → w.storeRes = Except.error e →
      GenerateAndStore w = (zeroAddress, some e)) ∧
    (∀ k addr e, w.newWallet = none → w.openRes = none →
      w.statusRes = (walletOpen, none) → w.genKey = Except.ok k →
      w.storeRes = Except.ok addr → w.closeRes = some e →
      GenerateAndStore w
        = (addr, some ("unable to close Hashicorp Vault wallet: " ++ e))) ∧
    (∀ k addr, w.newWallet = none → w.openRes = none →
      w.statusRes = (walletOpen, none) → w.genKey = Except.ok k →
      w.storeRes = Except.ok addr → w.closeRes = none →
      GenerateAndStore w = (addr, none)) := by
  refine ⟨?_, ?_, ?_, ?_, ?_, ?_, ?_, ?_⟩
  · intro e h1; simp [GenerateAndStore, h1]
  · intro e h1 h2; simp [GenerateAndStore, h1, h2]
  · intro st e h1 h2 h3; simp [GenerateAndStore, h1, h2, h3]
  · intro st h1 h2 h3 h4; simp [GenerateAndStore, h1, h2, h3, h4]
  · intro e h1 h2 h3 h4; simp [GenerateAndStore, h1, h2, h3, h4]
  · intro k e h1 h2 h3 h4 h5; simp [GenerateAndStore, h1, h2, h3, h4, h5]
  · intro k addr e h1 h2 h3 h4 h5 h6; simp [GenerateAndStore, h1, h2, h3, h4, h5, h6]
  · intro k addr h1 h2 h3 h4 h5 h6; simp [GenerateAndStore, h1, h2, h3, h4, h5, h6]

/-- C10 witness: with a successful store of address `addr` and a
failing close, the stored address is returned with the wrapped close
error. -/
theorem generateAndStore_spec_witness :
    GenerateAndStore
        { storeRes := Except.ok "addr", closeRes := some "boom" }
      = ("addr", some ("unable to close Hashicorp Vault wallet: " ++ "boom")) :=
  (generateAndStore_spec
      { storeRes := Except.ok "addr", closeRes := some "boom" }).2.2.2.2.2.2.1
    {} "addr" "boom" rfl rfl rfl rfl rfl rfl

/-- C1: credential resolution on `Open()` follows the strict four-tier
precedence — with a non-empty configured environment-variable prefix,
both prefixed AppRole variables set means the installed token is the
prefixed-AppRole exchange result; with the prefixed pair absent, the
prefixed token variable is installed; with no prefix configured, both
global AppRole variables set means the global exchange result; with
the global pair also absent, the global token variable is installed.
With no prefix configured the resolution depends only on the three
global variables, so the prefixed tiers are consulted only when the
prefix is non-empty. -/
theorem open_credential_precedence (cfg : HashicorpClientConfig) (env : Env)
    (ex : String → String → String → Except String String) :
    (∀ r s t, cfg.envVarPref ≠ "" →
      env (cfg.envVarPref ++ "_" ++ VaultRoleId) = some r →
      env (cfg.envVarPref ++ "_" ++ VaultSecretId) = some s →
      ex ("auth/" ++ approlePath cfg ++ "/login") r s = Except.ok t →
      openToken cfg env ex = Except.ok t) ∧
    (∀ t, cfg.envVarPref ≠ "" →
      env (cfg.envVarPref ++ "_" ++ VaultRoleId) = none →
      env (cfg.envVarPref ++ "_" ++ VaultSecretId) = none →
      env (cfg.envVarPref ++ "_" ++ EnvVaultToken) = some t →
      openToken cfg env ex = Except.ok t) ∧
    (∀ r s t, cfg.envVarPref = "" →
      env VaultRoleId = some r → env VaultSecretId = some s →
      ex ("auth/" ++ approlePath cfg ++ "/login") r s = Except.ok t →
      openToken cfg env ex = Except.ok t) ∧
    (∀ t, cfg.envVarPref = "" →
      env VaultRoleId = none → env VaultSecretId = none →
      env EnvVaultToken = some t →
      openToken cfg env ex = Except.ok t) ∧
    (∀ env' : Env, cfg.envVarPref = "" →
      env' VaultRoleId = env VaultRoleId →
      env' VaultSecretId = env VaultSecretId →
      env' EnvVaultToken = env EnvVaultToken →
      openToken cfg env' ex = openToken cfg env ex) := by
  refine ⟨?_, ?_, ?_, ?_, ?_⟩
  · intro r s t hp hr hs hex
    simp [openToken, resolveCredential, resolveTier, hp, hr, hs, hex]
  · intro t hp hr hs ht
    simp [openToken, resolveCredential, resolveTier, hp, hr, hs, ht]
  · intro r s t hp hr hs hex
    simp [openToken, resolveCredential, resolveTier, hp, hr, hs, hex]
  · intro t hp hr hs ht
    simp [openToken, resolveCredential, resolveTier, hp, hr, hs, ht]
  · intro env' hp hr hs ht
    simp [openToken, resolveCredential, resolveTier, hp, hr, hs, ht]

/-- C1 witness: with all four tiers populated and prefix `PREFIXED`,
the installed token is the prefixed-AppRole exchange result. -/
theorem open_credential_precedence_witness :
    openToken { envVarPref := "PREFIXED" } testEnvFull testExchange
      = Except.ok "prefixed-approle-token" :=
  (open_credential_precedence { envVarPref := "PREFIXED" } testEnvFull testExchange).1
    "prefixed-role-id" "prefixed-secret-id" "prefixed-approle-token"
    (by decide) rfl rfl rfl

/-- C2: with a non-empty configured prefix, resolution never falls
back to the global tiers — with none of the prefixed variables set,
`Open()` fails with the prefixed cannot-authenticate error, and with
exactly one of the prefixed AppRole variables set (and no prefixed
token) it fails with the distinct prefixed AppRole-authentication
error, in both cases for every environment, so in particular whatever
global variables are set. -/
theorem open_no_global_fallback (cfg : HashicorpClientConfig) (env : Env)
    (ex : String → String → String → Except String String)
    (hp : cfg.envVarPref ≠ "") :
    (env (cfg.envVarPref ++ "_" ++ VaultRoleId) = none →
      env (cfg.envVarPref ++ "_" ++ VaultSecretId) = none →
      env (cfg.envVarPref ++ "_" ++ EnvVaultToken) = none →
      openToken cfg env ex = Except.error (OpenErr.auth AuthErr.cannotAuthenticatePfx)) ∧
    (∀ r, env (cfg.envVarPref ++ "_" ++ VaultRoleId) = some r →
      env (cfg.envVarPref ++ "_" ++ VaultSecretId) = none →
      env (cfg.envVarPref ++ "_" ++ EnvVaultToken) = none →
      openToken cfg env ex = Except.error (OpenErr.auth AuthErr.approleAuthenticationPfx)) ∧
    (∀ s, env (cfg.envVarPref ++ "_" ++ VaultRoleId) = none →
      env (cfg.envVarPref ++ "_" ++ VaultSecretId) = some s →
      env (cfg.envVarPref ++ "_" ++ EnvVaultToken) = none →
      openToken cfg env ex = Except.error (OpenErr.auth AuthErr.approleAuthenticationPfx)) ∧
    AuthErr.cannotAuthenticatePfx ≠ AuthErr.approleAuthenticationPfx := by
  refine ⟨?_, ?_, ?_, by decide⟩
  · intro hr hs ht
    simp [openToken, resolveCredential, resolveTier, hp, hr, hs, ht]
  · intro r hr hs ht
    simp [openToken, resolveCredential, resolveTier, hp, hr, hs, ht]
  · intro s hr hs ht
    simp [openToken, resolveCredential, resolveTier, hp, hr, hs, ht]

/-- C2 witness: prefix configured, no prefixed variables set, both
global tiers populated — `Open()` fails with the prefixed
cannot-authenticate error rather than falling back. -/
theorem open_no_global_fallback_witness :
    openToken { envVarPref := "PREFIXED" } testEnvGlobalOnly testExchange
      = Except.error (OpenErr.auth AuthErr.cannotAuthenticatePfx) :=
  (open_no_global_fallback { envVarPref := "PREFIXED" } testEnvGlobalOnly testExchange
    (by decide)).1 rfl rfl rfl

/-- One retrieval step only appends to the accumulated accounts and
errors; its contribution does not depend on the accumulator. -/
theorem getAccountsStep_shift (cfg : HashicorpClientConfig)
    (read : String → List (String × List String) → Except String String)
    (acc : List acctAndSecret × List String) (s : HashicorpSecret) :
    getAccountsStep cfg read acc s
      = (acc.1 ++ (getAccountsStep cfg read ([], []) s).1,
         acc.2 ++ (getAccountsStep cfg read ([], []) s).2) := by
  cases h1 : s.toRequestData with
  | error e => simp [getAccountsStep, h1]
  | ok pq =>
      obtain ⟨path, qp⟩ := pq
      cases h2 : read path qp with
      | error e => simp [getAccountsStep, h1, h2]
      | ok addr =>
          cases h3 : getAccountUrl cfg s with
          | error e => simp [getAccountsStep, h1, h2, h3]
          | ok url => simp [getAccountsStep, h1, h2, h3]

/-- Folding the retrieval step from any accumulator just appends the
descriptor list's own contribution. -/
theorem getAccounts_foldl_shift (cfg : HashicorpClientConfig)
    (read : String → List (String × List String) → Except String String)
    (l : List HashicorpSecret) (acc : List acctAndSecret × List String) :
    l.foldl (getAccountsStep cfg read) acc
      = (acc.1 ++ (getAccounts cfg read l).1, acc.2 ++ (getAccounts cfg read l).2) := by
  induction l generalizing acc with
  | nil => simp [getAccounts]
  | cons s l ih =>
      simp only [getAccounts, List.foldl_cons]
      rw [ih (getAccountsStep cfg read acc s), ih (getAccountsStep cfg read ([], []) s),
        getAccountsStep_shift cfg read acc s]
      simp [List.append_assoc]

/-- C3: `GetAccounts()` isolates per-descriptor failures — the
accounts and errors of a concatenated descriptor list are the
concatenations of each part's accounts and errors, so a failing
descriptor never aborts the remaining ones; and on the 4-descriptor
fixture whose second descriptor has a negative version and whose
third triggers a transport error, exactly 2 accounts and 2 errors are
returned. -/
theorem getAccounts_failure_isolation :
    (∀ (cfg : HashicorpClientConfig)
      (read : String → List (String × List String) → Except String String)
      (l1 l2 : List HashicorpSecret),
      getAccounts cfg read (l1 ++ l2)
        = ((getAccounts cfg read l1).1 ++ (getAccounts cfg read l2).1,
           (getAccounts cfg read l1).2 ++ (getAccounts cfg read l2).2)) ∧
    ((getAccounts c3Cfg c3Read c3Secrets).1.length = 2 ∧
     (getAccounts c3Cfg c3Read c3Secrets).2.length = 2) := by
  constructor
  · intro cfg read l1 l2
    have h : getAccounts cfg read (l1 ++ l2)
        = l2.foldl (getAccountsStep cfg read) (getAccounts cfg read l1) := by
      simp [getAccounts, List.foldl_append]
    rw [h, getAccounts_foldl_shift]
  · constructor <;> decide

/-- C6: `GetPrivateKey(account)` — an absent address, or a non-empty
supplied locator matching no mapped entry, yields the zero-value key
together with the unknown-account error; an empty locator retrieves
through the first mapped entry in insertion order; a locator exactly
matching a mapped entry retrieves through that entry. -/
theorem getPrivateKey_lookup (mapping : List (String × List acctAndSecret))
    (read : String → List (String × List String) → Except String String)
    (decode : String → Except String EcdsaKey) (a : Account) :
    (mapping.lookup a.Address = none →
      GetPrivateKey mapping read decode a = (zeroEcdsaKey, some unknownAccountErr)) ∧
    (∀ entries, mapping.lookup a.Address = some entries → a.URL ≠ "" →
      entries.find? (fun e => e.acct.URL = a.URL) = none →
      GetPrivateKey mapping read decode a = (zeroEcdsaKey, some unknownAccountErr)) ∧
    (∀ e rest, mapping.lookup a.Address = some (e :: rest) → a.URL = "" →
      GetPrivateKey mapping read decode a = retrieveKey read decode e.secret) ∧
    (∀ entries e, mapping.lookup a.Address = some entries → a.URL ≠ "" →
      entries.find? (fun x => x.acct.URL = a.URL) = some e →
      GetPrivateKey mapping read decode a = retrieveKey read decode e.secret) := by
  refine ⟨?_, ?_, ?_, ?_⟩
  · intro h
    simp [GetPrivateKey, h]
  · intro entries h hu hf
    simp [GetPrivateKey, h, hu, hf]
  · intro e rest h hu
    simp [GetPrivateKey, h, hu]
  · intro entries e h hu hf
    simp [GetPrivateKey, h, hu, hf]

/-- C6 witness: on an empty mapping the result is the zero-value key
with the unknown-account error. -/
theorem getPrivateKey_lookup_witness :
    GetPrivateKey [] (fun _ _ => Except.error "no read")
      (fun _ => Except.error "no decode") { Address := "addr" }
      = (zeroEcdsaKey, some unknownAccountErr) :=
  (getPrivateKey_lookup [] (fun _ _ => Except.error "no read")
    (fun _ => Except.error "no decode") { Address := "addr" }).1 rfl

/-- Session operations never touch the immutable Connection Config or
Secret Descriptors of the service state. -/
theorem applySessionOps_preserve (ops : List SessionOp) (s : hashicorpService) :
    (ops.foldl applySessionOp s).clientConfig = s.clientConfig ∧
    (ops.foldl applySessionOp s).secrets = s.secrets := by
  induction ops generalizing s with
  | nil => exact ⟨rfl, rfl⟩
  | cons op ops ih =>
      simp only [List.foldl_cons]
      obtain ⟨h1, h2⟩ := ih (applySessionOp s op)
      cases op <;> exact ⟨h1, h2⟩

/-- C8: after any sequence of `Open()`/`GetAccounts()`/
`GetPrivateKey()` operations on a freshly constructed service,
`Close()` returns the state to the freshly constructed instance with
the same Connection Config and Secret Descriptors (delegate and
Address Mapping discarded), and invokes the delegate's clear-token
operation whenever a delegate is present. -/
theorem close_resets (cfg : HashicorpClientConfig) (secrets : List HashicorpSecret)
    (ops : List SessionOp) :
    (CloseService (ops.foldl applySessionOp (newHashicorpService cfg secrets))).1
      = newHashicorpService cfg secrets ∧
    ((ops.foldl applySessionOp (newHashicorpService cfg secrets)).client.isSome = true →
      (CloseService (ops.foldl applySessionOp (newHashicorpService cfg secrets))).2
        = true) := by
  obtain ⟨h1, h2⟩ := applySessionOps_preserve ops (newHashicorpService cfg secrets)
  constructor
  · simp only [CloseService, newHashicorpService] at h1 h2 ⊢
    rw [h1, h2]
  · intro h
    simpa [CloseService] using h

/-- C8 witness: after an `Open()` installing a delegate, `Close()`
yields the fresh state and clears the token. -/
theorem close_resets_witness :
    (CloseService ([SessionOp.openOp { token := some "t" }].foldl applySessionOp
        (newHashicorpService {} []))).1 = newHashicorpService {} [] ∧
    (CloseService ([SessionOp.openOp { token := some "t" }].foldl applySessionOp
        (newHashicorpService {} []))).2 = true :=
  ⟨(close_resets {} [] [SessionOp.openOp { token := some "t" }]).1,
   (close_resets {} [] [SessionOp.openOp { token := some "t" }]).2 rfl⟩

/-- C9: `Store(keyPair)` interacts with the vault only through a
single write to the path built from the first configured Secret
Descriptor carrying the nested
`("data", [(accountIdField, addressHex), (keyIdField, keyHex)])`
payload — even when further descriptors are configured — and on a
successful write returns the address derived from the key's public
component. -/
theorem store_first_secret (derive : EcdsaKey → String)
    (write : String → List (String × List (String × String)) → Option String)
    (s1 : HashicorpSecret) (rest : List HashicorpSecret) (key : EcdsaKey)
    (hv : 0 ≤ s1.Version) :
    (∀ write' : String → List (String × List (String × String)) → Option String,
      write' (s1.SecretEngine ++ "/data/" ++ s1.Name) (storePayload s1 (derive key) key.d)
        = write (s1.SecretEngine ++ "/data/" ++ s1.Name) (storePayload s1 (derive key) key.d) →
      StoreKey derive write' (s1 :: rest) key = StoreKey derive write (s1 :: rest) key) ∧
    (write (s1.SecretEngine ++ "/data/" ++ s1.Name) (storePayload s1 (derive key) key.d)
        = none →
      StoreKey derive write (s1 :: rest) key = Except.ok (derive key)) ∧
    (∀ e, write (s1.SecretEngine ++ "/data/" ++ s1.Name) (storePayload s1 (derive key) key.d)
        = some e →
      StoreKey derive write (s1 :: rest) key = Except.error e) := by
  have hreq : s1.toRequestData
      = Except.ok (s1.SecretEngine ++ "/data/" ++ s1.Name,
          [("version", [toString s1.Version])]) := by
    rw [HashicorpSecret.toRequestData, if_neg (not_lt.mpr hv)]
  refine ⟨?_, ?_, ?_⟩
  · intro write' hw
    simp [StoreKey, hreq, hw]
  · intro hw
    simp [StoreKey, hreq, hw]
  · intro e hw
    simp [StoreKey, hreq, hw]

/-- C9 witness: with two descriptors configured and a successful
write, `Store` returns the derived address (the write called at the
first descriptor's path). -/
theorem store_first_secret_witness :
    StoreKey (fun k => "addr-of-" ++ k.d) (fun _ _ => none)
        [{ Name := "secret", AccountID := "acct", KeyID := "key" },
         { Name := "secret2", AccountID := "acct", KeyID := "key" }]
        { d := "9676" }
      = Except.ok ("addr-of-" ++ "9676") :=
  (store_first_secret (fun k => "addr-of-" ++ k.d) (fun _ _ => none)
    { Name := "secret", AccountID := "acct", KeyID := "key" }
    [{ Name := "secret2", AccountID := "acct", KeyID := "key" }]
    { d := "9676" } (by decide)).2.1 rfl

end Vault
